import Mathlib

/-!
Verification of the attendance / cafeteria QR-credential subsystem of the
babcock-smart-campus-backend repository.

Shallow embedding notes:
* `datetime` values are modelled as `Nat` seconds since the epoch (UTC).
* `datetime.utcnow().replace(hour=0, minute=0, second=0, microsecond=0)` is
  `startOfDay`, truncation to the enclosing UTC day.
* Python `timedelta.seconds` (used by the rate limiter) is the seconds
  component of the normalized timedelta, i.e. floor-mod of the difference by
  86400; this is `tdSeconds` below (over `Int`, matching Python floor-mod).
* MongoDB collections are modelled as lists in insertion order; `find_one`
  is `List.find?` (first match), `insert_one` appends.
* The module-level `rate_limit_cache` dictionary of
  `src/app/routers/attendance.py` is modelled as an association list passed
  and returned explicitly; assignment conses a new binding (lookup takes the
  most recent one).
-/

namespace Babcock

/-- Decidable equality of tagged results, so theorems about concrete runs can
be settled by evaluation. -/
instance {ε α : Type} [DecidableEq ε] [DecidableEq α] :
    DecidableEq (Except ε α) := fun a b =>
  match a, b with
  | .error e, .error f =>
    if h : e = f then .isTrue (by rw [h]) else .isFalse (by simp [h])
  | .ok x, .ok y =>
    if h : x = y then .isTrue (by rw [h]) else .isFalse (by simp [h])
  | .error _, .ok _ => .isFalse (by simp)
  | .ok _, .error _ => .isFalse (by simp)

/-- Truncation of a UTC timestamp to midnight of its day:
`datetime.utcnow().replace(hour=0, minute=0, second=0, microsecond=0)`. -/
def startOfDay (t : Nat) : Nat := t / 86400 * 86400

/-- Python `(now - last).seconds` on `datetime` values: the `timedelta` is
normalized with floor division, so its `seconds` field is
`(now - last) mod 86400` with floor-mod semantics (`Int.emod` agrees with
Python `%` for the positive modulus `86400`). -/
def tdSeconds (now last : Nat) : Int := ((now : Int) - (last : Int)) % 86400

/-- A document of the `classes` collection (the fields read or written by the
attendance QR logic; `date` is a full datetime, `start_time` / `end_time` are
seconds since midnight like Python `datetime.time`). -/
structure ClassDoc where
  id : Nat
  name : String
  course_code : String
  instructor_id : Nat
  date : Nat
  start_time : Nat
  end_time : Nat
  location : String
  is_active : Bool
  current_qr_code : Option Nat
  qr_generated_at : Option Nat
  deriving DecidableEq

/-- A document of the `users` collection (fields the scan flow copies into
attendance records; `email` is the JWT identity used by the Flask router). -/
structure UserDoc where
  id : Nat
  email : String
  student_id : String
  full_name : String
  department : String
  level : String
  deriving DecidableEq

/-- A document of the `qr_codes` collection.  `qr_hash` stands for the
sha256 hex digest (an opaque identifier). -/
structure QRDoc where
  class_id : Nat
  qr_hash : Nat
  expires_at : Nat
  is_active : Bool
  created_at : Nat
  created_by : Nat
  deriving DecidableEq

/-- A document of the `attendance` collection, as built by `scan_qr_code`. -/
structure AttendanceDoc where
  class_id : Nat
  user_id : Nat
  student_id : String
  full_name : String
  department : String
  level : String
  class_name : String
  course_code : String
  date : Nat
  check_in_time : Nat
  status : String
  qr_code : Nat
  location : String
  created_at : Nat
  updated_at : Nat
  deriving DecidableEq

/-- The MongoDB database: the four collections the subsystem touches. -/
structure Store where
  classes : List ClassDoc
  users : List UserDoc
  qr_codes : List QRDoc
  attendance : List AttendanceDoc
  deriving DecidableEq

/-- `datetime.combine(class_data["date"].date(), class_data["start_time"])`. -/
def classStartOf (c : ClassDoc) : Nat := startOfDay c.date + c.start_time

/-- `datetime.combine(class_data["date"].date(), class_data["end_time"])`. -/
def classEndOf (c : ClassDoc) : Nat := startOfDay c.date + c.end_time

/-- The members of the `AttendanceStatus` enum in
`src/app/schemas/attendance.py` (name, value).  Note: there is no `EARLY`
member. -/
def attendanceStatusMembers : List (String × String) :=
  [("PRESENT", "present"), ("ABSENT", "absent"), ("LATE", "late"),
   ("EXCUSED", "excused"), ("TARDY", "tardy")]

/-- Python attribute access `AttendanceStatus.<name>.value`; `none` models the
`AttributeError` raised for a missing enum member. -/
def attendanceStatusAttr (name : String) : Option String :=
  (attendanceStatusMembers.find? (fun p => p.1 == name)).map (fun p => p.2)

/-- The status chain of `AttendanceService.scan_qr_code`
(src/app/routers/attendance.py lines 253-260).  The first branch evaluates
`AttendanceStatus.EARLY`, which is not a member of the enum, so it raises
`AttributeError` (modelled by `none`). -/
def fastapiComputeStatus (now cstart cend : Nat) : Option String :=
  if now < cstart then attendanceStatusAttr "EARLY"
  else if now ≤ cstart + 15 * 60 then attendanceStatusAttr "PRESENT"
  else if now ≤ cend then attendanceStatusAttr "LATE"
  else attendanceStatusAttr "ABSENT"

/-- The duplicate-attendance query of `scan_qr_code`:
`find_one({class_id, user_id, date: {$gte: utcnow().replace(hour=0,...)}})`. -/
def hasTodayRecord (att : List AttendanceDoc) (classId userId now : Nat) :
    Option AttendanceDoc :=
  att.find? (fun a =>
    a.class_id == classId && a.user_id == userId && startOfDay now ≤ a.date)

/-- The rate-limiting condition of `AttendanceService.scan_qr_code` lines
196-199: the key is in the cache and the elapsed `timedelta.seconds` is
below the 30 second cooldown. -/
def rateLimited (cache : List (Nat × Nat)) (userId now : Nat) : Bool :=
  match cache.lookup userId with
  | some last => decide (tdSeconds now last < 30)
  | none => false

/-- Outcomes of the FastAPI `AttendanceService.scan_qr_code`.

Inside that function the name `status` is assigned at lines 254-260
(`status = AttendanceStatus...`), which under Python scoping makes `status`
a local variable for the whole function body.  Consequently every earlier
expression `status.HTTP_429_TOO_MANY_REQUESTS`, `status.HTTP_400_BAD_REQUEST`
and `status.HTTP_404_NOT_FOUND` (lines 201, 209, 215, 222, 244) raises
`UnboundLocalError` instead of building the intended `CustomHTTPException`;
the `except Exception` handler turns that into
`DatabaseError("Failed to process attendance")` (HTTP 500).  Only
`DuplicateAttendanceError` (HTTP 409, error_type `duplicate_attendance`) is
constructed without touching `status` and propagates intact. -/
inductive ScanError where
  /-- `DatabaseError` (HTTP 500) — also produced, via `UnboundLocalError` on
  the shadowed name `status`, at the rate-limit / invalid / inactive /
  expired / not-found raise sites, and via `AttributeError` on the missing
  `AttendanceStatus.EARLY` member. -/
  | databaseError
  /-- `DuplicateAttendanceError` (HTTP 409, "already marked"). -/
  | duplicateAttendance
  deriving DecidableEq

/-- Successful scan payload: the returned `status` string and check-in time. -/
structure ScanOk where
  status : String
  check_in_time : Nat
  deriving DecidableEq

/-- `AttendanceService.scan_qr_code` of `src/app/routers/attendance.py`
(lines 192-306).  Takes the database, the module-level `rate_limit_cache`,
the scanned hash, the supplied location, the caller and the current time;
returns the updated database, updated cache, and the outcome. -/
def scan_qr_code (db : Store) (cache : List (Nat × Nat)) (qrCode : Nat)
    (location : String) (userId now : Nat) :
    Store × List (Nat × Nat) × Except ScanError ScanOk :=
  -- Rate limiting check; the raise of the intended HTTP 429 hits the
  -- shadowed `status` name and degrades to DatabaseError.
  if rateLimited cache userId now then (db, cache, .error .databaseError)
  else
    -- Validate QR code: find_one({"qr_hash": qr_data.qr_code})
    match db.qr_codes.find? (fun q => q.qr_hash == qrCode) with
    | none => (db, cache, .error .databaseError)  -- intended 400 "Invalid QR code"
    | some qrDoc =>
      if !qrDoc.is_active then
        (db, cache, .error .databaseError)  -- intended 400 "no longer active"
      else if qrDoc.expires_at < now then
        -- `datetime.utcnow() > qr_doc["expires_at"]` (strict)
        (db, cache, .error .databaseError)  -- intended 400 "QR code has expired"
      else
        match hasTodayRecord db.attendance qrDoc.class_id userId now with
        | some _ => (db, cache, .error .duplicateAttendance)
        | none =>
          match db.classes.find? (fun c => c.id == qrDoc.class_id),
                db.users.find? (fun u => u.id == userId) with
          | some classData, some userData =>
            match fastapiComputeStatus now (classStartOf classData)
                (classEndOf classData) with
            | none => (db, cache, .error .databaseError)  -- AttributeError: EARLY
            | some st =>
              let doc : AttendanceDoc :=
                { class_id := qrDoc.class_id
                  user_id := userId
                  student_id := userData.student_id
                  full_name := userData.full_name
                  department := userData.department
                  level := userData.level
                  class_name := classData.name
                  course_code := classData.course_code
                  date := classData.date
                  check_in_time := now
                  status := st
                  qr_code := qrCode
                  location := location
                  created_at := now
                  updated_at := now }
              ({ db with attendance := db.attendance ++ [doc] },
               (userId, now) :: cache, .ok ⟨st, now⟩)
          | _, _ => (db, cache, .error .databaseError)  -- intended 404

/-! ## The Flask scan flow (`src/app/routers/flask_attendance.py`)

The Flask router has no rate limiter and no name shadowing: its raise sites
use literal status codes, so the error kinds are distinct and survive to the
caller.  Statuses are written as plain strings (`"early"`, `"present"`,
`"late"`, `"absent"`). -/

/-- Error outcomes of the Flask `scan_qr_code` (each a distinct
`CustomHTTPException`). -/
inductive FlaskScanError where
  /-- 404 "User not found". -/
  | userNotFound
  /-- 400 "Invalid QR code". -/
  | invalidQr
  /-- 400 "QR code is no longer active". -/
  | qrInactive
  /-- 400 "QR code has expired". -/
  | qrExpired
  /-- 409 "Attendance already marked for this class today". -/
  | alreadyMarked
  /-- 404 "Class not found". -/
  | classNotFound
  deriving DecidableEq

/-- The status chain of the Flask `scan_qr_code` (lines 302-309), written
with string literals, so `"early"` exists. -/
def flaskComputeStatus (now cstart cend : Nat) : String :=
  if now < cstart then "early"
  else if now ≤ cstart + 15 * 60 then "present"
  else if now ≤ cend then "late"
  else "absent"

/-- The read-only phase of the Flask `scan_qr_code` (lines 255-328):
everything the handler does before `db.attendance.insert_one`, i.e. user
lookup, QR lookup, active and expiry checks, the duplicate query, class
lookup, status classification and building the document to insert.  No step
in this phase mutates the store. -/
def flaskScanCheck (db : Store) (email : String) (qrCode : Nat)
    (location : String) (now : Nat) : Except FlaskScanError AttendanceDoc :=
  match db.users.find? (fun u => u.email == email) with
  | none => .error .userNotFound
  | some currentUser =>
    match db.qr_codes.find? (fun q => q.qr_hash == qrCode) with
    | none => .error .invalidQr
    | some qrDoc =>
      if !qrDoc.is_active then .error .qrInactive
      else if qrDoc.expires_at < now then .error .qrExpired
        -- `datetime.utcnow() > qr_doc["expires_at"]` (strict)
      else
        match hasTodayRecord db.attendance qrDoc.class_id currentUser.id now with
        | some _ => .error .alreadyMarked
        | none =>
          match db.classes.find? (fun c => c.id == qrDoc.class_id) with
          | none => .error .classNotFound
          | some classData =>
            .ok { class_id := qrDoc.class_id
                  user_id := currentUser.id
                  student_id := currentUser.student_id
                  full_name := currentUser.full_name
                  department := currentUser.department
                  level := currentUser.level
                  class_name := classData.name
                  course_code := classData.course_code
                  date := classData.date
                  check_in_time := now
                  status := flaskComputeStatus now (classStartOf classData)
                    (classEndOf classData)
                  qr_code := qrCode
                  location := location
                  created_at := now
                  updated_at := now }

/-- Committing the record: `db.attendance.insert_one(attendance_doc)`. -/
def commitAttendance (db : Store) (doc : AttendanceDoc) : Store :=
  { db with attendance := db.attendance ++ [doc] }

/-- The Flask `scan_qr_code` handler (lines 250-351): the check phase
followed, on success, by the single insert. -/
def flask_scan_qr_code (db : Store) (email : String) (qrCode : Nat)
    (location : String) (now : Nat) :
    Store × Except FlaskScanError AttendanceDoc :=
  match flaskScanCheck db email qrCode location now with
  | .error e => (db, .error e)
  | .ok doc => (commitAttendance db doc, .ok doc)

/-! ## QR generation (`AttendanceService.generate_qr_code`,
`src/app/routers/attendance.py` lines 103-190)

The function takes no ttl argument.  `expires_at` is
`class_data["date"] + timedelta(hours=2)` — computed from the class's stored
date, not from `now()` and not from the class's end time.  There is no
shadowing of `status` in this function, so its error paths work as written. -/

/-- Error outcomes of `generate_qr_code`. -/
inductive GenError where
  /-- 404 "Class not found". -/
  | classNotFound
  /-- 403 "Only class instructor can generate QR codes". -/
  | forbidden
  /-- 400 "Cannot generate QR code for past classes". -/
  | pastClass
  deriving DecidableEq

/-- Successful generation payload (hash of the stored credential and its
expiry). -/
structure GenOk where
  qr_hash : Nat
  expires_at : Nat
  deriving DecidableEq

/-- `AttendanceService.generate_qr_code`.  `qrHash` stands for
`sha256(json.dumps(qr_data))`, whose value depends on the random nonce and is
passed in as an opaque parameter. -/
def generate_qr_code (db : Store) (classId instructorId now qrHash : Nat) :
    Store × Except GenError GenOk :=
  match db.classes.find? (fun c => c.id == classId) with
  | none => (db, .error .classNotFound)
  | some classData =>
    -- str(class_data["instructor_id"]) != instructor_id
    if classData.instructor_id ≠ instructorId then (db, .error .forbidden)
    -- class_date.date() < now.date()
    else if startOfDay classData.date < startOfDay now then
      (db, .error .pastClass)
    else
      -- expires_at = class_date + timedelta(hours=2)
      let expiresAt := classData.date + 2 * 3600
      let qrDoc : QRDoc :=
        { class_id := classId
          qr_hash := qrHash
          expires_at := expiresAt
          is_active := true
          created_at := now
          created_by := instructorId }
      let db' : Store :=
        { db with
          qr_codes := db.qr_codes ++ [qrDoc]
          classes := db.classes.map (fun c =>
            if c.id == classId then
              { c with current_qr_code := some qrHash,
                       qr_generated_at := some now }
            else c) }
      (db', .ok ⟨qrHash, expiresAt⟩)

/-! ## The cafeteria meal credential (`src/app/models/cafeteria.py`,
`CafeteriaQRCodeModel`) -/

/-- In-memory `CafeteriaQRCodeModel`. -/
structure CafeteriaQRCode where
  user_id : String
  student_id : String
  full_name : String
  department : String
  level : String
  meal_type : String
  date : Nat
  qr_code : String
  is_used : Bool
  used_at : Option Nat
  scanned_by : Option String
  created_at : Nat
  expires_at : Nat
  deriving DecidableEq

/-- `CafeteriaQRCodeModel.__init__`.  Optional Python arguments are `Option`s
resolved exactly as the constructor does: `qr_code or self._generate_qr_code()`
(the random fresh code is passed in as `generatedQr`),
`created_at or datetime.utcnow()`, and
`expires_at or (self.created_at + timedelta(hours=24))`. -/
def CafeteriaQRCode.init (userId studentId fullName department level
    mealType : String) (date : Nat) (qrCode : Option String)
    (generatedQr : String) (isUsed : Bool) (usedAt : Option Nat)
    (scannedBy : Option String) (createdAt : Option Nat)
    (expiresAt : Option Nat) (utcnow : Nat) : CafeteriaQRCode :=
  let created := createdAt.getD utcnow
  { user_id := userId
    student_id := studentId
    full_name := fullName
    department := department
    level := level
    meal_type := mealType
    date := date
    qr_code := qrCode.getD generatedQr
    is_used := isUsed
    used_at := usedAt
    scanned_by := scannedBy
    created_at := created
    expires_at := expiresAt.getD (created + 24 * 3600) }

/-- `CafeteriaQRCodeModel.mark_as_used`. -/
def CafeteriaQRCode.mark_as_used (m : CafeteriaQRCode) (adminId : String)
    (utcnow : Nat) : CafeteriaQRCode :=
  { m with is_used := true, used_at := some utcnow,
           scanned_by := some adminId }

/-- `CafeteriaQRCodeModel.is_expired`: `datetime.utcnow() > self.expires_at`
(strict). -/
def CafeteriaQRCode.is_expired (m : CafeteriaQRCode) (utcnow : Nat) : Bool :=
  m.expires_at < utcnow

/-- `CafeteriaQRCodeModel.is_valid`:
`not self.is_used and not self.is_expired()`. -/
def CafeteriaQRCode.is_valid (m : CafeteriaQRCode) (utcnow : Nat) : Bool :=
  !m.is_used && !(m.is_expired utcnow)

/-! ## Helper lemmas -/

/-- Appending a single element that fails the predicate does not change the
result of `find?` (an insert of an unrelated document leaves every
`find_one` query unaffected). -/
theorem find?_append_single_of_neg {α : Type} (p : α → Bool) (l : List α)
    (x : α) (hx : p x = false) : (l ++ [x]).find? p = l.find? p := by
  rw [List.find?_append]
  cases h : l.find? p <;> simp [List.find?, hx, Option.or]

/-! ## Claim theorems -/

/-- C5: an `Issue` (QR-generation) call whose caller differs from the class's
`instructor_id` returns the 403 Forbidden error and leaves the whole store —
in particular the `qr_codes` collection — unchanged. -/
theorem C5_issue_forbidden (db : Store) (classId instructorId now qrHash : Nat)
    (c : ClassDoc)
    (hc : db.classes.find? (fun x => x.id == classId) = some c)
    (hne : c.instructor_id ≠ instructorId) :
    generate_qr_code db classId instructorId now qrHash =
      (db, .error .forbidden) := by
  simp only [generate_qr_code, hc, if_pos hne]

/-- C5 witness: a concrete class owned by instructor 10; caller 99 gets
Forbidden and the store is untouched. -/
theorem C5_witness :
    (let db : Store :=
      ⟨[⟨1, "Alg", "CS101", 10, 0, 36000, 39600, "H", true, none, none⟩],
       [], [], []⟩
     db.classes.find? (fun x => x.id == 1) =
        some ⟨1, "Alg", "CS101", 10, 0, 36000, 39600, "H", true, none, none⟩ ∧
     (⟨1, "Alg", "CS101", 10, 0, 36000, 39600, "H", true, none,
        none⟩ : ClassDoc).instructor_id ≠ 99 ∧
     generate_qr_code db 1 99 500 77 = (db, .error .forbidden)) :=
  ⟨by rfl, by decide, C5_issue_forbidden _ 1 99 500 77 _ (by rfl) (by decide)⟩

/-- C6 (amended): `generate_qr_code` takes no ttl argument; on success the
credential's expiry is unconditionally the class's stored `date` plus 2
hours — computed neither from `now()` nor from the class's end time — and
the stored document records exactly that expiry. -/
theorem C6_expires_is_class_date_plus_2h (db : Store)
    (classId instructorId now qrHash : Nat) (c : ClassDoc)
    (hc : db.classes.find? (fun x => x.id == classId) = some c)
    (hown : c.instructor_id = instructorId)
    (hdate : ¬ startOfDay c.date < startOfDay now) :
    (generate_qr_code db classId instructorId now qrHash).2 =
      .ok ⟨qrHash, c.date + 2 * 3600⟩ ∧
    (generate_qr_code db classId instructorId now qrHash).1.qr_codes =
      db.qr_codes ++
        [⟨classId, qrHash, c.date + 2 * 3600, true, now, instructorId⟩] := by
  simp [generate_qr_code, hc, hown, hdate]

/-- C6 witness: class dated midnight of day 0, owner issues at 10:00; the
credential expires at 02:00 of day 0 — `class date + 2h`. -/
theorem C6_witness :
    (let db : Store :=
      ⟨[⟨1, "Alg", "CS101", 10, 0, 36000, 39600, "H", true, none, none⟩],
       [], [], []⟩
     db.classes.find? (fun x => x.id == 1) =
        some ⟨1, "Alg", "CS101", 10, 0, 36000, 39600, "H", true, none, none⟩ ∧
     (⟨1, "Alg", "CS101", 10, 0, 36000, 39600, "H", true, none,
        none⟩ : ClassDoc).instructor_id = 10 ∧
     ¬ startOfDay 0 < startOfDay 36000 ∧
     (generate_qr_code db 1 10 36000 99).2 = .ok ⟨99, 0 + 2 * 3600⟩ ∧
     (generate_qr_code db 1 10 36000 99).1.qr_codes =
       [] ++ [⟨1, 99, 0 + 2 * 3600, true, 36000, 10⟩]) :=
  ⟨by rfl, by rfl, by decide,
   C6_expires_is_class_date_plus_2h
     ⟨[⟨1, "Alg", "CS101", 10, 0, 36000, 39600, "H", true, none, none⟩],
      [], [], []⟩ 1 10 36000 99
     ⟨1, "Alg", "CS101", 10, 0, 36000, 39600, "H", true, none, none⟩
     (by rfl) (by rfl) (by decide)⟩

/-- C6 counterexample: at the same concrete input the issued expiry (7200,
i.e. 02:00 of day 0) lies strictly before the issuance time 36000 (10:00),
so it cannot equal `now() + ttl` for any ttl within the claimed
10-minute–4-hour bound (all of which exceed `now()`), and it is not clamped
to the session end 39600 plus 2 hours either. -/
theorem C6_counterexample :
    (generate_qr_code
      ⟨[⟨1, "Alg", "CS101", 10, 0, 36000, 39600, "H", true, none, none⟩],
       [], [], []⟩ 1 10 36000 99).2 = .ok ⟨99, 7200⟩ ∧
    7200 < 36000 + 10 * 60 ∧ 7200 < 36000 := by decide

/-- C3: in the FastAPI flow, a scan before the class start crashes instead of
recording EARLY: `AttendanceStatus` (src/app/schemas/attendance.py) has no
`EARLY` member, so `AttendanceStatus.EARLY` raises `AttributeError`, which
the handler converts to `DatabaseError` (HTTP 500); no record is inserted.
The parallel Flask flow, which uses the string literal `"early"`, classifies
the same instant as early. -/
theorem C3_early_scan_crashes :
    (let s : Store :=
      ⟨[⟨2, "Alg", "CS102", 10, 0, 10800, 14400, "Hall", true, none, none⟩],
       [⟨7, "stu@x.edu", "BU001", "Stu Dent", "CS", "300"⟩],
       [⟨2, 6, 7200, true, 100, 10⟩], []⟩
     scan_qr_code s [] 6 "" 7 3600 = (s, [], .error .databaseError)) ∧
    attendanceStatusAttr "EARLY" = none ∧
    -- the intended chain, live in the Flask flow, at the spec's sample
    -- points for the window 10:00-11:00 with a 15-minute grace
    flaskComputeStatus 35940 36000 39600 = "early" ∧
    flaskComputeStatus 36600 36000 39600 = "present" ∧
    flaskComputeStatus 37200 36000 39600 = "late" ∧
    flaskComputeStatus 39900 36000 39600 = "absent" ∧
    -- an after-window scan is still recorded (as absent), not rejected —
    -- in both flows, since ABSENT does exist in the enum
    (let s2 : Store :=
      ⟨[⟨3, "Netw", "CS205", 10, 36000, 36000, 39600, "Hall", true, none,
         none⟩],
       [⟨7, "stu@x.edu", "BU001", "Stu Dent", "CS", "300"⟩],
       [⟨3, 8, 43200, true, 36000, 10⟩], []⟩
     (scan_qr_code s2 [] 8 "" 7 39900).2.2 = .ok ⟨"absent", 39900⟩ ∧
     (scan_qr_code s2 [] 8 "" 7 39900).1.attendance.length = 1 ∧
     (flask_scan_qr_code s2 "stu@x.edu" 8 "" 39900).1.attendance.length =
       1) := by decide

/-- C8: a scan arriving 20 seconds after the subject's cached last scan is
rejected before any validation and inserts nothing — but the error the
caller receives is the generic `DatabaseError` (HTTP 500), not a distinct
Throttled/429 kind: the raise of `HTTP_429_TOO_MANY_REQUESTS` reads the
local name `status` before its assignment and dies with `UnboundLocalError`.
The identical call without the cache entry succeeds, showing the rate check
alone causes the rejection. -/
theorem C8_throttled_degrades_to_500 :
    (let s : Store :=
      ⟨[⟨3, "Netw", "CS205", 10, 36000, 36000, 39600, "Hall", true, none,
         none⟩],
       [⟨7, "stu@x.edu", "BU001", "Stu Dent", "CS", "300"⟩],
       [⟨3, 8, 43200, true, 36000, 10⟩], []⟩
     scan_qr_code s [(7, 36080)] 8 "" 7 36100 =
        (s, [(7, 36080)], .error .databaseError) ∧
     (scan_qr_code s [] 8 "" 7 36100).2.2 = .ok ⟨"present", 36100⟩ ∧
     (scan_qr_code s [] 8 "" 7 36100).1.attendance.length = 1) := by decide

/-- C10: for the cafeteria meal credential model, `is_valid` holds exactly
for an unused credential at a time not after `expires_at`; once
`mark_as_used` has run, `is_valid` is false at every time; and a credential
constructed without an explicit expiry gets
`expires_at = created_at + 24 hours`, which is strictly after its
`created_at`. -/
theorem C10_cafeteria_model :
    (∀ (m : CafeteriaQRCode) (now : Nat),
      m.is_valid now = true ↔ (m.is_used = false ∧ now ≤ m.expires_at)) ∧
    (∀ (m : CafeteriaQRCode) (adminId : String) (t later : Nat),
      (m.mark_as_used adminId t).is_valid later = false) ∧
    (∀ (userId studentId fullName department level mealType : String)
       (date : Nat) (qrCode : Option String) (generatedQr : String)
       (isUsed : Bool) (usedAt : Option Nat) (scannedBy : Option String)
       (createdAt : Option Nat) (utcnow : Nat),
      (CafeteriaQRCode.init userId studentId fullName department level
          mealType date qrCode generatedQr isUsed usedAt scannedBy createdAt
          none utcnow).expires_at = createdAt.getD utcnow + 24 * 3600 ∧
      (CafeteriaQRCode.init userId studentId fullName department level
          mealType date qrCode generatedQr isUsed usedAt scannedBy createdAt
          none utcnow).created_at <
        (CafeteriaQRCode.init userId studentId fullName department level
          mealType date qrCode generatedQr isUsed usedAt scannedBy createdAt
          none utcnow).expires_at) := by
  refine ⟨?_, ?_, ?_⟩
  · intro m now
    simp [CafeteriaQRCode.is_valid, CafeteriaQRCode.is_expired, Nat.not_lt]
  · intro m adminId t later
    simp [CafeteriaQRCode.mark_as_used, CafeteriaQRCode.is_valid]
  · intro userId studentId fullName department level mealType date qrCode
      generatedQr isUsed usedAt scannedBy createdAt utcnow
    simp [CafeteriaQRCode.init]

/-- C1 (amended): a scan whose (class, user) pair already has an attendance
record dated on or after the start of the scan day is rejected with the
distinct `DuplicateAttendanceError` (HTTP 409, "already marked"), and both
the database and the rate cache are returned unchanged. -/
theorem C1_duplicate_rejected (db : Store) (cache : List (Nat × Nat))
    (qrCode : Nat) (location : String) (userId now : Nat) (qrDoc : QRDoc)
    (r : AttendanceDoc)
    (hrate : rateLimited cache userId now = false)
    (hq : db.qr_codes.find? (fun q => q.qr_hash == qrCode) = some qrDoc)
    (hact : qrDoc.is_active = true)
    (hexp : ¬ qrDoc.expires_at < now)
    (hdup : hasTodayRecord db.attendance qrDoc.class_id userId now = some r) :
    scan_qr_code db cache qrCode location userId now =
      (db, cache, .error .duplicateAttendance) := by
  simp [scan_qr_code, hrate, hq, hact, hexp, hdup]

/-- C1 witness: user 7 already has a record for class 2 dated today; the
second scan returns the 409 duplicate error and the store is unchanged. -/
theorem C1_witness :
    (let s : Store :=
      ⟨[⟨2, "Alg", "CS102", 10, 36000, 36000, 39600, "Hall", true, none,
         none⟩],
       [⟨7, "stu@x.edu", "BU001", "Stu Dent", "CS", "300"⟩],
       [⟨2, 6, 43200, true, 100, 10⟩],
       [⟨2, 7, "BU001", "Stu Dent", "CS", "300", "Alg", "CS102", 36000,
         36100, "present", 6, "", 36100, 36100⟩]⟩
     rateLimited [] 7 36200 = false ∧
     s.qr_codes.find? (fun q => q.qr_hash == 6) =
       some ⟨2, 6, 43200, true, 100, 10⟩ ∧
     (⟨2, 6, 43200, true, 100, 10⟩ : QRDoc).is_active = true ∧
     ¬ (43200 : Nat) < 36200 ∧
     hasTodayRecord s.attendance 2 7 36200 =
       some ⟨2, 7, "BU001", "Stu Dent", "CS", "300", "Alg", "CS102", 36000,
         36100, "present", 6, "", 36100, 36100⟩ ∧
     scan_qr_code s [] 6 "" 7 36200 =
       (s, [], .error .duplicateAttendance)) :=
  ⟨by rfl, by rfl, by rfl, by decide, by rfl,
   C1_duplicate_rejected
     ⟨[⟨2, "Alg", "CS102", 10, 36000, 36000, 39600, "Hall", true, none,
        none⟩],
      [⟨7, "stu@x.edu", "BU001", "Stu Dent", "CS", "300"⟩],
      [⟨2, 6, 43200, true, 100, 10⟩],
      [⟨2, 7, "BU001", "Stu Dent", "CS", "300", "Alg", "CS102", 36000,
        36100, "present", 6, "", 36100, 36100⟩]⟩
     [] 6 "" 7 36200 ⟨2, 6, 43200, true, 100, 10⟩
     ⟨2, 7, "BU001", "Stu Dent", "CS", "300", "Alg", "CS102", 36000, 36100,
      "present", 6, "", 36100, 36100⟩
     (by rfl) (by rfl) (by rfl) (by decide) (by rfl)⟩

/-- C1 counterexample: the per-day uniqueness invariant fails in a reachable
sequential run.  A class dated 23:30 of day 0 has a QR valid until 01:30 of
day 1.  User 7 scans at 00:30 and again at 00:31 of day 1: the duplicate
query only matches records with `date ≥` the scan day's midnight (86400),
but both records carry the class date 84600, so the second scan is **not**
rejected as a duplicate and a second record for the same (class, user) pair
is inserted — two records whose check-in times fall on the same calendar
day. -/
theorem C1_counterexample :
    (let s : Store :=
      ⟨[⟨1, "Alg", "CS101", 10, 84600, 82800, 86340, "Hall", true, none,
         none⟩],
       [⟨7, "stu@x.edu", "BU001", "Stu Dent", "CS", "300"⟩],
       [⟨1, 5, 91800, true, 84000, 10⟩], []⟩
     let st1 := scan_qr_code s [] 5 "" 7 88200
     let st2 := scan_qr_code st1.1 st1.2.1 5 "" 7 88260
     st1.2.2 = .ok ⟨"absent", 88200⟩ ∧
     st2.2.2 = .ok ⟨"absent", 88260⟩ ∧
     (st2.1.attendance.filter (fun a =>
        a.class_id == 1 && a.user_id == 7 &&
        startOfDay a.check_in_time == 86400)).length = 2) := by decide

/-- C4 (amended): expiry is strict — a credential is reported expired for
`now() > expires_at` — and monotone: once that holds it holds at every later
time, so validation never reports the credential valid again.  Stated for
the cafeteria model's `is_expired` / `is_valid` and for the Flask scan flow,
whose expiry rejection is the distinct 400 "QR code has expired" error with
the store unchanged. -/
theorem C4_expired_is_strict_and_monotone :
    (∀ (m : CafeteriaQRCode) (now later : Nat),
      m.expires_at < now → now ≤ later →
      m.is_expired later = true ∧ m.is_valid later = false) ∧
    (∀ (db : Store) (email : String) (qrCode : Nat) (location : String)
       (now later : Nat) (u : UserDoc) (qrDoc : QRDoc),
      db.users.find? (fun x => x.email == email) = some u →
      db.qr_codes.find? (fun q => q.qr_hash == qrCode) = some qrDoc →
      qrDoc.is_active = true → qrDoc.expires_at < now → now ≤ later →
      flask_scan_qr_code db email qrCode location later =
        (db, .error .qrExpired)) := by
  constructor
  · intro m now later hlt hle
    have h : m.expires_at < later := lt_of_lt_of_le hlt hle
    simp [CafeteriaQRCode.is_expired, CafeteriaQRCode.is_valid, h]
  · intro db email qrCode location now later u qrDoc hu hq hact hlt hle
    have h : qrDoc.expires_at < later := lt_of_lt_of_le hlt hle
    simp [flask_scan_qr_code, flaskScanCheck, hu, hq, hact, h]

/-- C4 witness: a cafeteria credential expiring at 100 is expired and invalid
at 500; a stored QR expiring at 7200 scanned at 8000 yields the 400 expired
error with the store unchanged. -/
theorem C4_witness :
    ((CafeteriaQRCode.init "u" "s" "f" "d" "l" "breakfast" 0 none "Q" false
        none none (some 0) (some 100) 0).expires_at < 101 ∧ (101 : Nat) ≤ 500 ∧
     (CafeteriaQRCode.init "u" "s" "f" "d" "l" "breakfast" 0 none "Q" false
        none none (some 0) (some 100) 0).is_expired 500 = true ∧
     (CafeteriaQRCode.init "u" "s" "f" "d" "l" "breakfast" 0 none "Q" false
        none none (some 0) (some 100) 0).is_valid 500 = false) ∧
    (let s : Store :=
      ⟨[⟨2, "Alg", "CS102", 10, 0, 10800, 14400, "Hall", true, none, none⟩],
       [⟨7, "stu@x.edu", "BU001", "Stu Dent", "CS", "300"⟩],
       [⟨2, 6, 7200, true, 100, 10⟩], []⟩
     s.users.find? (fun x => x.email == "stu@x.edu") =
       some ⟨7, "stu@x.edu", "BU001", "Stu Dent", "CS", "300"⟩ ∧
     s.qr_codes.find? (fun q => q.qr_hash == 6) =
       some ⟨2, 6, 7200, true, 100, 10⟩ ∧
     (⟨2, 6, 7200, true, 100, 10⟩ : QRDoc).is_active = true ∧
     (⟨2, 6, 7200, true, 100, 10⟩ : QRDoc).expires_at < 7300 ∧
     (7300 : Nat) ≤ 8000 ∧
     flask_scan_qr_code s "stu@x.edu" 6 "" 8000 =
       (s, .error .qrExpired)) :=
  ⟨⟨by decide, by decide,
    C4_expired_is_strict_and_monotone.1
      (CafeteriaQRCode.init "u" "s" "f" "d" "l" "breakfast" 0 none "Q" false
        none none (some 0) (some 100) 0) 101 500 (by decide) (by decide)⟩,
   ⟨by rfl, by rfl, by rfl, by decide, by decide,
    C4_expired_is_strict_and_monotone.2
      ⟨[⟨2, "Alg", "CS102", 10, 0, 10800, 14400, "Hall", true, none, none⟩],
       [⟨7, "stu@x.edu", "BU001", "Stu Dent", "CS", "300"⟩],
       [⟨2, 6, 7200, true, 100, 10⟩], []⟩
      "stu@x.edu" 6 "" 7300 8000
      ⟨7, "stu@x.edu", "BU001", "Stu Dent", "CS", "300"⟩
      ⟨2, 6, 7200, true, 100, 10⟩
      (by rfl) (by rfl) (by rfl) (by decide) (by decide)⟩⟩

/-- C4 counterexample: at the exact expiry instant `now = expires_at` the
claim demands `valid=false, reason=expired` (it uses `now() ≥ expires_at`),
but the code's strict comparison `utcnow() > expires_at` still treats the
credential as unexpired and valid. -/
theorem C4_counterexample :
    (CafeteriaQRCode.init "u" "s" "f" "d" "l" "breakfast" 0 none "Q" false
      none none (some 0) (some 100) 0).is_valid 100 = true ∧
    (CafeteriaQRCode.init "u" "s" "f" "d" "l" "breakfast" 0 none "Q" false
      none none (some 0) (some 100) 0).is_expired 100 = false := by decide

/-- C7 (amended): credential validation in the Flask scan flow checks, in
order, existence (reason: invalid/unknown), `is_active` (reason: inactive —
chosen even when the credential is also expired), and then expiry with the
strict test `now() > expires_at` (reason: expired); and a validation failure
leaves the store exactly as it was — the check phase mutates nothing. -/
theorem C7_validation_order_and_purity :
    (∀ (db : Store) (email : String) (qrCode : Nat) (location : String)
       (now : Nat) (u : UserDoc),
      db.users.find? (fun x => x.email == email) = some u →
      db.qr_codes.find? (fun q => q.qr_hash == qrCode) = none →
      flaskScanCheck db email qrCode location now = .error .invalidQr) ∧
    (∀ (db : Store) (email : String) (qrCode : Nat) (location : String)
       (now : Nat) (u : UserDoc) (qrDoc : QRDoc),
      db.users.find? (fun x => x.email == email) = some u →
      db.qr_codes.find? (fun q => q.qr_hash == qrCode) = some qrDoc →
      qrDoc.is_active = false →
      flaskScanCheck db email qrCode location now = .error .qrInactive) ∧
    (∀ (db : Store) (email : String) (qrCode : Nat) (location : String)
       (now : Nat) (u : UserDoc) (qrDoc : QRDoc),
      db.users.find? (fun x => x.email == email) = some u →
      db.qr_codes.find? (fun q => q.qr_hash == qrCode) = some qrDoc →
      qrDoc.is_active = true → qrDoc.expires_at < now →
      flaskScanCheck db email qrCode location now = .error .qrExpired) ∧
    (∀ (db : Store) (email : String) (qrCode : Nat) (location : String)
       (now : Nat) (e : FlaskScanError),
      flaskScanCheck db email qrCode location now = .error e →
      flask_scan_qr_code db email qrCode location now = (db, .error e)) := by
  refine ⟨?_, ?_, ?_, ?_⟩
  · intro db email qrCode location now u hu hq
    simp [flaskScanCheck, hu, hq]
  · intro db email qrCode location now u qrDoc hu hq hact
    simp [flaskScanCheck, hu, hq, hact]
  · intro db email qrCode location now u qrDoc hu hq hact hlt
    simp [flaskScanCheck, hu, hq, hact, hlt]
  · intro db email qrCode location now e h
    simp [flask_scan_qr_code, h]

/-- C7 witness: with user 7 present — an unknown hash yields the invalid
reason; an inactive credential that is *also* long expired yields the
inactive reason (first failing check wins); an active expired one yields the
expired reason; and each failure returns the store unchanged. -/
theorem C7_witness :
    (let s1 : Store :=
      ⟨[], [⟨7, "stu@x.edu", "BU001", "Stu Dent", "CS", "300"⟩], [], []⟩
     s1.users.find? (fun x => x.email == "stu@x.edu") =
       some ⟨7, "stu@x.edu", "BU001", "Stu Dent", "CS", "300"⟩ ∧
     s1.qr_codes.find? (fun q => q.qr_hash == 6) = none ∧
     flaskScanCheck s1 "stu@x.edu" 6 "" 5000 = .error .invalidQr ∧
     flask_scan_qr_code s1 "stu@x.edu" 6 "" 5000 =
       (s1, .error .invalidQr)) ∧
    (let s2 : Store :=
      ⟨[], [⟨7, "stu@x.edu", "BU001", "Stu Dent", "CS", "300"⟩],
       [⟨2, 6, 100, false, 0, 10⟩], []⟩
     s2.qr_codes.find? (fun q => q.qr_hash == 6) =
       some ⟨2, 6, 100, false, 0, 10⟩ ∧
     (⟨2, 6, 100, false, 0, 10⟩ : QRDoc).is_active = false ∧
     flaskScanCheck s2 "stu@x.edu" 6 "" 5000 = .error .qrInactive) ∧
    (let s3 : Store :=
      ⟨[], [⟨7, "stu@x.edu", "BU001", "Stu Dent", "CS", "300"⟩],
       [⟨2, 6, 100, true, 0, 10⟩], []⟩
     (⟨2, 6, 100, true, 0, 10⟩ : QRDoc).expires_at < 5000 ∧
     flaskScanCheck s3 "stu@x.edu" 6 "" 5000 = .error .qrExpired) :=
  ⟨⟨by rfl, by rfl,
    C7_validation_order_and_purity.1
      ⟨[], [⟨7, "stu@x.edu", "BU001", "Stu Dent", "CS", "300"⟩], [], []⟩
      "stu@x.edu" 6 "" 5000
      ⟨7, "stu@x.edu", "BU001", "Stu Dent", "CS", "300"⟩ (by rfl) (by rfl),
    C7_validation_order_and_purity.2.2.2
      ⟨[], [⟨7, "stu@x.edu", "BU001", "Stu Dent", "CS", "300"⟩], [], []⟩
      "stu@x.edu" 6 "" 5000 .invalidQr (by rfl)⟩,
   ⟨by rfl, by rfl,
    C7_validation_order_and_purity.2.1
      ⟨[], [⟨7, "stu@x.edu", "BU001", "Stu Dent", "CS", "300"⟩],
       [⟨2, 6, 100, false, 0, 10⟩], []⟩
      "stu@x.edu" 6 "" 5000
      ⟨7, "stu@x.edu", "BU001", "Stu Dent", "CS", "300"⟩
      ⟨2, 6, 100, false, 0, 10⟩ (by rfl) (by rfl) (by rfl)⟩,
   ⟨by decide,
    C7_validation_order_and_purity.2.2.1
      ⟨[], [⟨7, "stu@x.edu", "BU001", "Stu Dent", "CS", "300"⟩],
       [⟨2, 6, 100, true, 0, 10⟩], []⟩
      "stu@x.edu" 6 "" 5000
      ⟨7, "stu@x.edu", "BU001", "Stu Dent", "CS", "300"⟩
      ⟨2, 6, 100, true, 0, 10⟩ (by rfl) (by rfl) (by rfl) (by decide)⟩⟩

/-- C7 counterexample: at the boundary instant `now = expires_at` the
claim's third check `now() < expires_at` fails, so validation would have to
report reason expired; the code's strict `>` lets the credential through and
the scan proceeds to a successful classification. -/
theorem C7_counterexample :
    flaskScanCheck
      ⟨[⟨2, "Alg", "CS102", 10, 0, 10800, 14400, "Hall", true, none, none⟩],
       [⟨7, "stu@x.edu", "BU001", "Stu Dent", "CS", "300"⟩],
       [⟨2, 6, 7200, true, 100, 10⟩], []⟩
      "stu@x.edu" 6 "" 7200 =
      .ok ⟨2, 7, "BU001", "Stu Dent", "CS", "300", "Alg", "CS102", 0, 7200,
           "early", 6, "", 7200, 7200⟩ ∧
    ¬ ((7200 : Nat) < 7200) := by decide

/-- C2 (amended): duplicate prevention is an application-level
check-then-insert — the handler first queries for an existing record and
only then inserts, with no storage-level uniqueness constraint — so under
*sequential* execution a second `Redeem` for a pair that already has a
today-dated record returns the duplicate error and changes nothing, but the
guarantee does not survive interleaving (see the counterexample). -/
theorem C2_sequential_duplicate (db : Store) (email : String) (qrCode : Nat)
    (location : String) (now : Nat) (u : UserDoc) (qrDoc : QRDoc)
    (r : AttendanceDoc)
    (hu : db.users.find? (fun x => x.email == email) = some u)
    (hq : db.qr_codes.find? (fun q => q.qr_hash == qrCode) = some qrDoc)
    (hact : qrDoc.is_active = true)
    (hexp : ¬ qrDoc.expires_at < now)
    (hr : r ∈ db.attendance) (hrc : r.class_id = qrDoc.class_id)
    (hru : r.user_id = u.id) (hrd : startOfDay now ≤ r.date) :
    flask_scan_qr_code db email qrCode location now =
      (db, .error .alreadyMarked) := by
  have hsome :
      (hasTodayRecord db.attendance qrDoc.class_id u.id now).isSome := by
    rw [hasTodayRecord, List.find?_isSome]
    exact ⟨r, hr, by simp [hrc, hru, hrd]⟩
  obtain ⟨r2, hr2⟩ := Option.isSome_iff_exists.mp hsome
  simp [flask_scan_qr_code, flaskScanCheck, hu, hq, hact, hexp, hr2]

/-- C2 witness: user 7 already has a record for class 2 dated today; a
second sequential scan returns the 409 duplicate error with the store
unchanged. -/
theorem C2_witness :
    (let s : Store :=
      ⟨[⟨2, "Alg", "CS102", 10, 36000, 36000, 39600, "Hall", true, none,
         none⟩],
       [⟨7, "stu@x.edu", "BU001", "Stu Dent", "CS", "300"⟩],
       [⟨2, 6, 43200, true, 100, 10⟩],
       [⟨2, 7, "BU001", "Stu Dent", "CS", "300", "Alg", "CS102", 36000,
         36100, "present", 6, "", 36100, 36100⟩]⟩
     s.users.find? (fun x => x.email == "stu@x.edu") =
       some ⟨7, "stu@x.edu", "BU001", "Stu Dent", "CS", "300"⟩ ∧
     s.qr_codes.find? (fun q => q.qr_hash == 6) =
       some ⟨2, 6, 43200, true, 100, 10⟩ ∧
     (⟨2, 6, 43200, true, 100, 10⟩ : QRDoc).is_active = true ∧
     ¬ (43200 : Nat) < 36200 ∧
     (⟨2, 7, "BU001", "Stu Dent", "CS", "300", "Alg", "CS102", 36000,
       36100, "present", 6, "", 36100, 36100⟩ : AttendanceDoc) ∈
       s.attendance ∧
     startOfDay 36200 ≤ 36000 ∧
     flask_scan_qr_code s "stu@x.edu" 6 "" 36200 =
       (s, .error .alreadyMarked)) :=
  ⟨by rfl, by rfl, by rfl, by decide, by simp, by decide,
   C2_sequential_duplicate
     ⟨[⟨2, "Alg", "CS102", 10, 36000, 36000, 39600, "Hall", true, none,
        none⟩],
      [⟨7, "stu@x.edu", "BU001", "Stu Dent", "CS", "300"⟩],
      [⟨2, 6, 43200, true, 100, 10⟩],
      [⟨2, 7, "BU001", "Stu Dent", "CS", "300", "Alg", "CS102", 36000,
        36100, "present", 6, "", 36100, 36100⟩]⟩
     "stu@x.edu" 6 "" 36200
     ⟨7, "stu@x.edu", "BU001", "Stu Dent", "CS", "300"⟩
     ⟨2, 6, 43200, true, 100, 10⟩
     ⟨2, 7, "BU001", "Stu Dent", "CS", "300", "Alg", "CS102", 36000, 36100,
      "present", 6, "", 36100, 36100⟩
     (by rfl) (by rfl) (by rfl) (by decide) (by simp) (by rfl) (by rfl)
     (by decide)⟩

/-- C2 counterexample: the uniqueness is *not* enforced by an atomic
conditional insert at the storage layer.  Two concurrent redemption calls
for the same (class, user, day) interleave so that both run the read-only
check phase against the same initial store — both pass, since neither
insert has committed — and then both commit: the final store holds two
records for the pair and neither call returned the duplicate error,
violating "exactly one record and N−1 DuplicateRedemption" for N = 2. -/
theorem C2_counterexample :
    (let s : Store :=
      ⟨[⟨2, "Alg", "CS102", 10, 36000, 36000, 39600, "Hall", true, none,
         none⟩],
       [⟨7, "stu@x.edu", "BU001", "Stu Dent", "CS", "300"⟩],
       [⟨2, 6, 43200, true, 100, 10⟩], []⟩
     let d1 : AttendanceDoc :=
       ⟨2, 7, "BU001", "Stu Dent", "CS", "300", "Alg", "CS102", 36000,
        36100, "present", 6, "", 36100, 36100⟩
     let d2 : AttendanceDoc :=
       ⟨2, 7, "BU001", "Stu Dent", "CS", "300", "Alg", "CS102", 36000,
        36105, "present", 6, "", 36105, 36105⟩
     flaskScanCheck s "stu@x.edu" 6 "" 36100 = .ok d1 ∧
     flaskScanCheck s "stu@x.edu" 6 "" 36105 = .ok d2 ∧
     ((commitAttendance (commitAttendance s d1) d2).attendance.filter
        (fun a => a.class_id == 2 && a.user_id == 7)).length = 2) := by
  decide

/-- Frame fact used for C9: committing another subject's attendance record
does not change the outcome of a scan's read-only check phase, as long as
that record does not belong to the scanning user. -/
theorem flaskScanCheck_commit_other (db : Store) (email : String)
    (qrCode : Nat) (location : String) (now : Nat) (u : UserDoc)
    (d1 : AttendanceDoc)
    (hu : db.users.find? (fun x => x.email == email) = some u)
    (hne : (d1.user_id == u.id) = false) :
    flaskScanCheck (commitAttendance db d1) email qrCode location now =
      flaskScanCheck db email qrCode location now := by
  simp only [flaskScanCheck, commitAttendance, hu]
  cases hq : db.qr_codes.find? (fun q => q.qr_hash == qrCode) with
  | none => rfl
  | some qrDoc =>
    by_cases hact : (!qrDoc.is_active) = true
    · simp only [if_pos hact]
    · simp only [if_neg hact]
      by_cases hexp : qrDoc.expires_at < now
      · simp only [if_pos hexp]
      · simp only [if_neg hexp]
        have happ : hasTodayRecord (db.attendance ++ [d1]) qrDoc.class_id
            u.id now = hasTodayRecord db.attendance qrDoc.class_id u.id
              now := by
          rw [hasTodayRecord, hasTodayRecord,
            find?_append_single_of_neg _ _ _ (by simp [hne])]
        rw [happ]

/-- Frame fact used for C9: the first store component returned by the
FastAPI scan keeps `qr_codes`, `classes` and `users` untouched on every
path. -/
theorem scan_qr_code_frame (db : Store) (cache : List (Nat × Nat))
    (qrCode : Nat) (location : String) (userId now : Nat) :
    (scan_qr_code db cache qrCode location userId now).1.qr_codes =
      db.qr_codes ∧
    (scan_qr_code db cache qrCode location userId now).1.classes =
      db.classes ∧
    (scan_qr_code db cache qrCode location userId now).1.users = db.users := by
  unfold scan_qr_code
  repeat' split
  all_goals simp

/-- C9: a redemption never mutates the credential: both scan flows leave the
`qr_codes` collection (and `classes`, `users`) exactly as stored, on success
and on failure alike; and a pending scan by a *different* subject that would
have succeeded against the store still succeeds identically after another
subject's record is committed — the credential stays redeemable per
(class, subject, day), not per credential. -/
theorem C9_credential_not_consumed :
    (∀ (db : Store) (email : String) (qrCode : Nat) (location : String)
       (now : Nat),
      (flask_scan_qr_code db email qrCode location now).1.qr_codes =
        db.qr_codes ∧
      (flask_scan_qr_code db email qrCode location now).1.classes =
        db.classes ∧
      (flask_scan_qr_code db email qrCode location now).1.users =
        db.users) ∧
    (∀ (db : Store) (cache : List (Nat × Nat)) (qrCode : Nat)
       (location : String) (userId now : Nat),
      (scan_qr_code db cache qrCode location userId now).1.qr_codes =
        db.qr_codes ∧
      (scan_qr_code db cache qrCode location userId now).1.classes =
        db.classes ∧
      (scan_qr_code db cache qrCode location userId now).1.users =
        db.users) ∧
    (∀ (db : Store) (email2 : String) (qrCode2 : Nat) (location2 : String)
       (now2 : Nat) (u : UserDoc) (d1 d2 : AttendanceDoc),
      db.users.find? (fun x => x.email == email2) = some u →
      d1.user_id ≠ u.id →
      flaskScanCheck db email2 qrCode2 location2 now2 = .ok d2 →
      flask_scan_qr_code (commitAttendance db d1) email2 qrCode2 location2
          now2 =
        (commitAttendance (commitAttendance db d1) d2, .ok d2)) := by
  refine ⟨?_, ?_, ?_⟩
  · intro db email qrCode location now
    unfold flask_scan_qr_code
    cases h : flaskScanCheck db email qrCode location now <;>
      simp [commitAttendance]
  · intro db cache qrCode location userId now
    exact scan_qr_code_frame db cache qrCode location userId now
  · intro db email2 qrCode2 location2 now2 u d1 d2 hu hne h2
    have heq := flaskScanCheck_commit_other db email2 qrCode2 location2 now2
      u d1 hu (by rw [beq_eq_false_iff_ne]; exact hne)
    rw [flask_scan_qr_code, heq, h2]

/-- C9 witness: users 7 and 8 both have pending checks against the same
store; after user 7's record is committed, user 8's scan still succeeds with
the same outcome, and the credential collection is unchanged on every path
of both flows. -/
theorem C9_witness :
    (let s : Store :=
      ⟨[⟨2, "Alg", "CS102", 10, 36000, 36000, 39600, "Hall", true, none,
         none⟩],
       [⟨7, "stu@x.edu", "BU001", "Stu Dent", "CS", "300"⟩,
        ⟨8, "two@x.edu", "BU002", "Stu Two", "CS", "300"⟩],
       [⟨2, 6, 43200, true, 100, 10⟩], []⟩
     let d1 : AttendanceDoc :=
       ⟨2, 7, "BU001", "Stu Dent", "CS", "300", "Alg", "CS102", 36000,
        36100, "present", 6, "", 36100, 36100⟩
     let d2 : AttendanceDoc :=
       ⟨2, 8, "BU002", "Stu Two", "CS", "300", "Alg", "CS102", 36000,
        36200, "present", 6, "", 36200, 36200⟩
     s.users.find? (fun x => x.email == "two@x.edu") =
       some ⟨8, "two@x.edu", "BU002", "Stu Two", "CS", "300"⟩ ∧
     d1.user_id ≠ 8 ∧
     flaskScanCheck s "two@x.edu" 6 "" 36200 = .ok d2 ∧
     flask_scan_qr_code (commitAttendance s d1) "two@x.edu" 6 "" 36200 =
       (commitAttendance (commitAttendance s d1) d2, .ok d2) ∧
     (flask_scan_qr_code (commitAttendance s d1) "two@x.edu" 6 ""
        36200).1.qr_codes = (commitAttendance s d1).qr_codes) :=
  ⟨by rfl, by decide, by decide,
   C9_credential_not_consumed.2.2
     ⟨[⟨2, "Alg", "CS102", 10, 36000, 36000, 39600, "Hall", true, none,
        none⟩],
      [⟨7, "stu@x.edu", "BU001", "Stu Dent", "CS", "300"⟩,
       ⟨8, "two@x.edu", "BU002", "Stu Two", "CS", "300"⟩],
      [⟨2, 6, 43200, true, 100, 10⟩], []⟩
     "two@x.edu" 6 "" 36200
     ⟨8, "two@x.edu", "BU002", "Stu Two", "CS", "300"⟩
     ⟨2, 7, "BU001", "Stu Dent", "CS", "300", "Alg", "CS102", 36000, 36100,
      "present", 6, "", 36100, 36100⟩
     ⟨2, 8, "BU002", "Stu Two", "CS", "300", "Alg", "CS102", 36000, 36200,
      "present", 6, "", 36200, 36200⟩
     (by rfl) (by decide) (by decide),
   by decide⟩

end Babcock
